import Mathlib

/-!
Shallow embedding of the GoE-Technologies contact-form relay.

The repository ships three near-duplicate serverless handlers for the same
endpoint: `api/contact.js` (the named variant) and two unnamed variants,
referred to here as `part2` and `part3`.  All three share the same
sliding-window rate limiter; they differ in honeypot policy, validation
error granularity, gate ordering and delivery error reporting.  Each JS
function is translated into a pure Lean function below; the two outbound
network calls (bot-score verification and email delivery) are modelled by
oracle arguments describing what the remote service did, and the mutable
in-memory store is threaded explicitly.
-/

/-! ## JavaScript value helpers

Request body fields are untyped in JS: a field is either absent
(`undefined`) or a string.  We model them as `Option String`.
-/

/-- JS truthiness of a string-or-undefined value: `undefined` and the empty
string are falsy, every other string is truthy. -/
def jsTruthy : Option String → Bool
  | none => false
  | some s => s ≠ ""

/-- JS `a || b` on string-or-undefined values: yields `a` when `a` is
truthy, otherwise `b`. -/
def jsOr (a b : Option String) : Option String :=
  match a with
  | none => b
  | some s => if s = "" then b else some s

/-- Read a string-or-undefined value, defaulting to the empty string
(models the `body.x || ''` extraction idiom). -/
def optStr (o : Option String) : String := o.getD ""

/-- Models JS `String.prototype.trim()`: strip leading and trailing
whitespace (restricted to the ASCII whitespace recognised by
`Char.isWhitespace`). -/
def jsTrim (s : String) : String :=
  ⟨((s.data.dropWhile Char.isWhitespace).reverse.dropWhile Char.isWhitespace).reverse⟩

/-- Models JS `String.prototype.toLowerCase()` (ASCII letters). -/
def jsToLower (s : String) : String := ⟨s.data.map Char.toLower⟩

/-! ## In-memory rate limiter

All three handler variants contain the same `checkRateLimit` function over
a module-level `Map` from identifier to an array of admission timestamps
(`Date.now()` values, modelled as `Int` milliseconds).  The `Map` is
modelled as an association list; `mapHas`/`mapGet`/`mapSet` model
`Map.has`/`Map.get`/`Map.set`.  The configuration (`RATE_LIMIT_MAX`,
`RATE_LIMIT_WINDOW_MIN`) is a module constant in `api/contact.js`,
a parameter in `part2` and an environment read in `part3`; all three
become the `RLConfig` argument.
-/

/-- A rate-limit store: identifier to recorded admission timestamps. -/
abbrev RLStore := List (String × List Int)

/-- Models `Map.has`. -/
def mapHas : RLStore → String → Bool
  | [], _ => false
  | (k0, _) :: rest, k => k0 = k || mapHas rest k

/-- Models `Map.get` (the code only calls it on present keys; absent keys
read as the empty timestamp list). -/
def mapGet : RLStore → String → List Int
  | [], _ => []
  | (k0, v0) :: rest, k => if k0 = k then v0 else mapGet rest k

/-- Models `Map.set`. -/
def mapSet : RLStore → String → List Int → RLStore
  | [], k, v => [(k, v)]
  | (k0, v0) :: rest, k, v =>
      if k0 = k then (k, v) :: rest else (k0, v0) :: mapSet rest k v

/-- Rate-limit configuration: `maxRequests` (`RATE_LIMIT_MAX`) and the
window in milliseconds (`RATE_LIMIT_WINDOW_MIN * 60 * 1000`). -/
structure RLConfig where
  maxRequests : Nat
  windowMs : Int

/-- Embedding of `checkRateLimit(identifier)` (identical algorithm in all
three variants): ensure a store entry exists, filter the recorded
timestamps to those with `now - time < windowMs`, deny when the filtered
count has reached `maxRequests` (writing nothing), otherwise append `now`
and persist.  Returns the admit decision and the updated store. -/
def checkRateLimit (cfg : RLConfig) (store : RLStore) (identifier : String)
    (now : Int) : Bool × RLStore :=
  let store1 := if mapHas store identifier then store else mapSet store identifier []
  let requests := mapGet store1 identifier
  let validRequests := requests.filter fun time => now - time < cfg.windowMs
  if cfg.maxRequests ≤ validRequests.length then
    (false, store1)
  else
    (true, mapSet store1 identifier (validRequests ++ [now]))

/-! ### Store lemmas -/

theorem mapGet_mapSet_self (m : RLStore) (k : String) (v : List Int) :
    mapGet (mapSet m k v) k = v := by
  induction m with
  | nil => simp [mapSet, mapGet]
  | cons hd tl ih =>
      obtain ⟨k0, v0⟩ := hd
      by_cases h : k0 = k <;> simp [mapSet, mapGet, h, ih]

theorem mapGet_mapSet_ne (m : RLStore) (k k' : String) (v : List Int)
    (h : k' ≠ k) : mapGet (mapSet m k v) k' = mapGet m k' := by
  have hne : k ≠ k' := Ne.symm h
  induction m with
  | nil => simp [mapSet, mapGet, hne]
  | cons hd tl ih =>
      obtain ⟨k0, v0⟩ := hd
      by_cases h0 : k0 = k
      · subst h0
        simp [mapSet, mapGet, hne]
      · simp [mapSet, mapGet, h0, ih]

theorem mapGet_eq_nil_of_not_has (m : RLStore) (k : String)
    (h : mapHas m k = false) : mapGet m k = [] := by
  induction m with
  | nil => simp [mapGet]
  | cons hd tl ih =>
      obtain ⟨k0, v0⟩ := hd
      simp only [mapHas, Bool.or_eq_false_iff, decide_eq_false_iff_not] at h
      simp [mapGet, h.1, ih h.2]

/-- The `if (!store.has(id)) store.set(id, [])` normalisation never changes
the timestamp list stored at any identifier. -/
theorem mapGet_normalize (store : RLStore) (k k' : String) :
    mapGet (if mapHas store k then store else mapSet store k []) k' =
      mapGet store k' := by
  cases hh : mapHas store k with
  | true => simp [hh]
  | false =>
      rw [if_neg (by simp [hh])]
      by_cases hk : k' = k
      · subst hk
        rw [mapGet_mapSet_self, mapGet_eq_nil_of_not_has store k' hh]
      · exact mapGet_mapSet_ne store k k' [] hk

theorem length_filter_lt_of_mem_not {α : Type} (p : α → Bool) (l : List α)
    (a : α) (ha : a ∈ l) (hpa : p a = false) :
    (l.filter p).length < l.length := by
  induction l with
  | nil => cases ha
  | cons hd tl ih =>
      rcases List.mem_cons.mp ha with h | h
      · subst h
        rw [List.filter_cons_of_neg (by simp [hpa])]
        exact Nat.lt_succ_of_le (List.length_filter_le p tl)
      · by_cases hp : p hd
        · rw [List.filter_cons_of_pos hp]
          simpa using ih h
        · rw [List.filter_cons_of_neg (by simpa using hp)]
          exact Nat.lt_succ_of_lt (ih h)

/-- C1: with the store holding `maxRequests` timestamps for `k`, all still
inside the trailing window at time `now`, the call at `now` is denied and
records nothing; and at any time `now2` by which the window has fully
elapsed since some recorded timestamp (in particular the earliest), the
call is admitted again — a sliding window, not a fixed bucket. -/
theorem C1_sliding_window_admission (cfg : RLConfig) (store : RLStore)
    (k : String) (now now2 : Int) (ts : List Int)
    (hget : mapGet store k = ts)
    (hlen : ts.length = cfg.maxRequests)
    (hin : ∀ t ∈ ts, now - t < cfg.windowMs) :
    (checkRateLimit cfg store k now).1 = false ∧
    mapGet (checkRateLimit cfg store k now).2 k = ts ∧
    ∀ tmin ∈ ts, cfg.windowMs ≤ now2 - tmin →
      (checkRateLimit cfg store k now2).1 = true := by
  have hreq : mapGet (if mapHas store k then store else mapSet store k []) k = ts := by
    rw [mapGet_normalize, hget]
  refine ⟨?_, ?_, ?_⟩
  · simp only [checkRateLimit, hreq]
    have hfil : ts.filter (fun time => decide (now - time < cfg.windowMs)) = ts :=
      List.filter_eq_self.mpr (fun a ha => by simpa using hin a ha)
    rw [hfil, hlen, if_pos (Nat.le_refl _)]
  · simp only [checkRateLimit, hreq]
    have hfil : ts.filter (fun time => decide (now - time < cfg.windowMs)) = ts :=
      List.filter_eq_self.mpr (fun a ha => by simpa using hin a ha)
    rw [hfil, hlen, if_pos (Nat.le_refl _)]
    simpa using hreq
  · intro tmin hmem hstale
    have hreq2 : mapGet (if mapHas store k then store else mapSet store k []) k = ts := hreq
    simp only [checkRateLimit, hreq2]
    have hlt : (ts.filter (fun time => decide (now2 - time < cfg.windowMs))).length <
        ts.length := by
      refine length_filter_lt_of_mem_not _ ts tmin hmem ?_
      simp [Int.not_lt.mpr hstale]
    rw [if_neg (by omega)]

/-- Closed witness for C1: cap 2, window 10 ms, store holding `[0, 5]` for
`k`; the call at time 9 is denied without a write, the call at time 10
(window elapsed since timestamp 0) is admitted. -/
theorem C1_sliding_window_admission_witness :
    (checkRateLimit ⟨2, 10⟩ [("k", [0, 5])] "k" 9).1 = false ∧
    mapGet (checkRateLimit ⟨2, 10⟩ [("k", [0, 5])] "k" 9).2 "k" = [0, 5] ∧
    (checkRateLimit ⟨2, 10⟩ [("k", [0, 5])] "k" 10).1 = true := by
  have h := C1_sliding_window_admission ⟨2, 10⟩ [("k", [0, 5])] "k" 9 10 [0, 5]
    (by decide) (by decide) (by decide)
  exact ⟨h.1, h.2.1, h.2.2 0 (by decide) (by decide)⟩

/-- C2: after an admitted `checkRateLimit` call at time `now` (with a
positive window), every timestamp then stored for the identifier lies
within the trailing window at `now`, and the stored count does not exceed
`maxRequests`. -/
theorem C2_admission_state_invariant (cfg : RLConfig) (store : RLStore)
    (k : String) (now : Int) (hW : 0 < cfg.windowMs)
    (hadm : (checkRateLimit cfg store k now).1 = true) :
    (∀ t0 ∈ mapGet (checkRateLimit cfg store k now).2 k,
      now - t0 < cfg.windowMs) ∧
    (mapGet (checkRateLimit cfg store k now).2 k).length ≤ cfg.maxRequests := by
  simp only [checkRateLimit] at hadm ⊢
  by_cases hc : cfg.maxRequests ≤
      ((mapGet (if mapHas store k then store else mapSet store k []) k).filter
        fun time => decide (now - time < cfg.windowMs)).length
  · rw [if_pos hc] at hadm
    cases hadm
  · rw [if_neg hc] at hadm ⊢
    rw [mapGet_mapSet_self]
    constructor
    · intro t0 ht0
      rcases List.mem_append.mp ht0 with h | h
      · simpa using (List.mem_filter.mp h).2
      · have : t0 = now := by simpa using h
        subst this
        simpa using hW
    · rw [List.length_append]
      simp only [List.length_cons, List.length_nil]
      omega

/-- Closed witness for C2: cap 2, window 10 ms, an admitted call at time 5
on a store holding `[0]` for `k`. -/
theorem C2_admission_state_invariant_witness :
    (∀ t0 ∈ mapGet (checkRateLimit ⟨2, 10⟩ [("k", [0])] "k" 5).2 "k",
      (5 : Int) - t0 < 10) ∧
    (mapGet (checkRateLimit ⟨2, 10⟩ [("k", [0])] "k" 5).2 "k").length ≤ 2 :=
  C2_admission_state_invariant ⟨2, 10⟩ [("k", [0])] "k" 5 (by decide) (by decide)

/-- C9: a denied `checkRateLimit` call persists nothing — the stored
timestamp list of every identifier (stale entries included) reads exactly
as before the call; pruning is only persisted on an admitted call, which
stores the filtered list plus the new timestamp. -/
theorem C9_denied_check_writes_nothing (cfg : RLConfig) (store : RLStore)
    (k : String) (now : Int) :
    ((checkRateLimit cfg store k now).1 = false →
      ∀ id0, mapGet (checkRateLimit cfg store k now).2 id0 = mapGet store id0) ∧
    ((checkRateLimit cfg store k now).1 = true →
      mapGet (checkRateLimit cfg store k now).2 k =
        (mapGet store k).filter (fun t => now - t < cfg.windowMs) ++ [now]) := by
  simp only [checkRateLimit]
  by_cases hc : cfg.maxRequests ≤
      ((mapGet (if mapHas store k then store else mapSet store k []) k).filter
        fun time => decide (now - time < cfg.windowMs)).length
  · rw [if_pos hc]
    refine ⟨fun _ id0 => mapGet_normalize store k id0, fun h => by cases h⟩
  · rw [if_neg hc]
    refine ⟨fun h => Bool.noConfusion h, fun _ => ?_⟩
    rw [mapGet_mapSet_self, mapGet_normalize]

/-- Closed witness for C9: cap 1, window 10 ms, store holding a stale
timestamp 0 and a fresh timestamp 100 for `k`; the call at time 105 is
denied and the stored list — stale entry included — is unchanged, also for
an unrelated identifier. -/
theorem C9_denied_check_writes_nothing_witness :
    mapGet (checkRateLimit ⟨1, 10⟩ [("k", [0, 100])] "k" 105).2 "k" = [0, 100] ∧
    mapGet (checkRateLimit ⟨1, 10⟩ [("k", [0, 100])] "k" 105).2 "z" = [] := by
  have h := (C9_denied_check_writes_nothing ⟨1, 10⟩ [("k", [0, 100])] "k" 105).1
    (by decide)
  exact ⟨h "k", h "z"⟩

/-! ## Email format validation

All three variants contain the same
`isValidEmail(email) { return /^[^\s@]+@[^\s@]+\.[^\s@]+$/.test(email); }`.
The anchored regex matches exactly the strings of the form
`A ++ "@" ++ B ++ "." ++ C` where `A`, `B`, `C` are non-empty runs of
characters that are neither whitespace nor `@` (`B` and `C` may contain
further dots).  `splitFirstAt` isolates the text around the first `@`;
since every run excludes `@`, a matching string contains exactly one `@`,
so splitting at the first one is faithful. -/

/-- The regex character class `[^\s@]`. -/
def emailCharOk (c : Char) : Bool := !c.isWhitespace && c ≠ '@'

/-- Split a character list at the first occurrence of `sep`; `none` when
`sep` does not occur. -/
def splitFirstAt (sep : Char) : List Char → Option (List Char × List Char)
  | [] => none
  | c :: rest =>
      if c = sep then some ([], rest)
      else
        match splitFirstAt sep rest with
        | some (b, a) => some (c :: b, a)
        | none => none

/-- Does the list contain a `'.'` that is neither its first nor its last
element?  (The positions at which `[^\s@]+\.[^\s@]+` can place its dot.) -/
def hasInteriorDot (l : List Char) : Bool :=
  ((l.drop 1).dropLast).any fun c => c = '.'

/-- Embedding of the regex test `/^[^\s@]+@[^\s@]+\.[^\s@]+$/.test(email)`
on the character list of the email. -/
def isValidEmailL (l : List Char) : Bool :=
  match splitFirstAt '@' l with
  | none => false
  | some (before, after) =>
      !before.isEmpty && before.all emailCharOk &&
        (after.all emailCharOk && hasInteriorDot after)

/-- Embedding of `isValidEmail(email)` (identical in all three variants). -/
def isValidEmail (s : String) : Bool := isValidEmailL s.data

theorem splitFirstAt_eq_none (sep : Char) (l : List Char) (h : sep ∉ l) :
    splitFirstAt sep l = none := by
  induction l with
  | nil => rfl
  | cons c rest ih =>
      have hc : ¬ c = sep := fun hh => h (hh ▸ List.mem_cons_self c rest)
      have hrest : sep ∉ rest := fun hh => h (List.mem_cons_of_mem c hh)
      simp [splitFirstAt, hc, ih hrest]

theorem splitFirstAt_eq_append (sep : Char) (l : List Char) :
    ∀ b a, splitFirstAt sep l = some (b, a) → l = b ++ sep :: a := by
  induction l with
  | nil => intro b a h; cases h
  | cons c rest ih =>
      intro b a h
      by_cases hc : c = sep
      · rw [splitFirstAt, if_pos hc] at h
        injection h with h2
        cases h2
        rw [List.nil_append, hc]
      · rw [splitFirstAt, if_neg hc] at h
        cases hsp : splitFirstAt sep rest with
        | none => simp only [hsp] at h; cases h
        | some ba =>
            obtain ⟨b', a'⟩ := ba
            simp only [hsp, Option.some.injEq, Prod.mk.injEq] at h
            obtain ⟨rfl, rfl⟩ := h
            rw [List.cons_append]
            exact congrArg (c :: ·) (ih b' a' hsp)

theorem splitFirstAt_append_sep (sep : Char) (b a : List Char)
    (hb : sep ∉ b) : splitFirstAt sep (b ++ sep :: a) = some (b, a) := by
  induction b with
  | nil => simp [splitFirstAt]
  | cons c rest ih =>
      have hc : ¬ c = sep := fun hh => hb (hh ▸ List.mem_cons_self c rest)
      have hrest : sep ∉ rest := fun hh => hb (List.mem_cons_of_mem c hh)
      simp [splitFirstAt, hc, ih hrest]

/-- C8: the email-shape gate.  For every email string: one with no `@`
fails, one with no `.` fails, one containing any whitespace character
fails; and every string of the shape `A@B.C` — with `A`, `B`, `C`
non-empty runs of characters that are neither whitespace nor `@` — passes
(for example `a@b.c`). -/
theorem C8_email_shape_gate :
    (∀ s : String, '@' ∉ s.data → isValidEmail s = false) ∧
    (∀ s : String, '.' ∉ s.data → isValidEmail s = false) ∧
    (∀ s : String, (∃ c ∈ s.data, c.isWhitespace) → isValidEmail s = false) ∧
    (∀ a b c : List Char, a ≠ [] → b ≠ [] → c ≠ [] →
      a.all emailCharOk = true → b.all emailCharOk = true →
      c.all emailCharOk = true →
      isValidEmailL (a ++ '@' :: (b ++ '.' :: c)) = true) := by
  refine ⟨?_, ?_, ?_, ?_⟩
  · intro s h
    simp [isValidEmail, isValidEmailL, splitFirstAt_eq_none '@' s.data h]
  · intro s h
    cases hsp : splitFirstAt '@' s.data with
    | none => simp [isValidEmail, isValidEmailL, hsp]
    | some ba =>
        obtain ⟨before, after⟩ := ba
        have hdec := splitFirstAt_eq_append '@' s.data before after hsp
        have hna : '.' ∉ after := fun hh =>
          h (hdec ▸ List.mem_append_right before (List.mem_cons_of_mem '@' hh))
        have hdot : hasInteriorDot after = false := by
          rw [hasInteriorDot]
          rw [List.any_eq_false]
          intro c hc
          have : c ∈ after :=
            List.drop_subset 1 after ((List.dropLast_sublist _).subset hc)
          simp only [decide_eq_true_eq]
          exact fun hcc => hna (hcc ▸ this)
        simp [isValidEmail, isValidEmailL, hsp, hdot]
  · intro s hws
    obtain ⟨c, hc, hcw⟩ := hws
    cases hsp : splitFirstAt '@' s.data with
    | none => simp [isValidEmail, isValidEmailL, hsp]
    | some ba =>
        obtain ⟨before, after⟩ := ba
        have hdec := splitFirstAt_eq_append '@' s.data before after hsp
        cases hres : isValidEmailL s.data with
        | false => simpa [isValidEmail] using hres
        | true =>
            exfalso
            rw [isValidEmailL, hsp] at hres
            simp only [Bool.and_eq_true, List.all_eq_true] at hres
            obtain ⟨⟨-, hball⟩, haall, -⟩ := hres
            rw [hdec] at hc
            rcases List.mem_append.mp hc with hcb | hca
            · have := hball c hcb
              simp [emailCharOk, hcw] at this
            · rcases List.mem_cons.mp hca with rfl | hca'
              · exact absurd hcw (by decide)
              · have := haall c hca'
                simp [emailCharOk, hcw] at this
  · intro a b c ha hb hc hall hball hcall
    have hna : '@' ∉ a := by
      intro hh
      have := (List.all_eq_true.mp hall) '@' hh
      simp [emailCharOk] at this
    rw [isValidEmailL, splitFirstAt_append_sep '@' a (b ++ '.' :: c) hna]
    have hisd : hasInteriorDot (b ++ '.' :: c) = true := by
      obtain ⟨x, b', rfl⟩ := List.exists_cons_of_ne_nil hb
      obtain ⟨y, c', rfl⟩ := List.exists_cons_of_ne_nil hc
      rw [hasInteriorDot]
      rw [List.any_eq_true]
      refine ⟨'.', ?_, by decide⟩
      rw [List.cons_append, List.drop_succ_cons, List.drop_zero,
        List.dropLast_append_cons]
      exact List.mem_append_right b' (by rw [List.dropLast_cons₂]; exact List.mem_cons_self _ _)
    simp only [Bool.and_eq_true, hisd, Bool.and_true]
    refine ⟨⟨by simpa using ha, hall⟩, ?_⟩
    rw [List.all_append]
    simp only [hball, Bool.true_and, List.all_cons, hcall, Bool.and_true]
    simp [emailCharOk]

/-- Closed witness for C8: `ab.c` (no `@`), `a@bc` (no `.`) and `a @b.c`
(embedded whitespace) are rejected, `a@b.c` is accepted. -/
theorem C8_email_shape_gate_witness :
    isValidEmail "ab.c" = false ∧ isValidEmail "a@bc" = false ∧
    isValidEmail "a @b.c" = false ∧ isValidEmail "a@b.c" = true := by
  refine ⟨C8_email_shape_gate.1 "ab.c" (by decide),
    C8_email_shape_gate.2.1 "a@bc" (by decide),
    C8_email_shape_gate.2.2.1 "a @b.c" ⟨' ', by decide, by decide⟩, ?_⟩
  have h := C8_email_shape_gate.2.2.2 ['a'] ['b'] ['c']
    (by decide) (by decide) (by decide) (by decide) (by decide) (by decide)
  exact h

/-! ## Bot-score verification (reCAPTCHA v3)

Each variant posts the token to the verification service and inspects the
parsed JSON reply.  The remote interaction is modelled by a `Fetched
RecapData` oracle: `Fetched.failed` covers both a network error and an
unparseable response body (in the code, `fetch` or `response.json()`
throwing, which lands in the same `catch` block); `Fetched.ok` carries the
parsed `{success, score?}` object.  Scores are modelled as rationals. -/

/-- Parsed verification-service reply: `{success: bool, score?: number}`. -/
structure RecapData where
  success : Bool
  score : Option ℚ

/-- Outcome of an outbound `fetch` + parse. -/
inductive Fetched (α : Type) where
  | failed
  | ok (data : α)

/-- Embedding of `verifyRecaptcha(token)` from `api/contact.js`: skip (and
accept) when no secret is configured; otherwise accept exactly when the
reply has `success` and a score of at least 0.4 (`data.score >= 0.4` is
false in JS when `score` is absent); any thrown error yields
`{success: false}`.  Returns the `success` field of the result object. -/
def verifyRecaptcha_contact (secret : Option String)
    (net : Fetched RecapData) : Bool :=
  if jsTruthy secret = false then true
  else
    match net with
    | .failed => false
    | .ok data =>
        data.success &&
          (match data.score with
           | some q => decide ((2 : ℚ)/5 ≤ q)
           | none => false)

/-- Result object of `verifyRecaptcha(token, secret)` from `part2`, one
constructor per return site (the `reason` strings are fixed per site). -/
inductive Recap2Result where
  | valid
  | failedVerification
  | scoreTooLow (score : ℚ)
  | verificationError
  deriving DecidableEq

/-- The `valid` field of a `part2` verification result. -/
def Recap2Result.isValid : Recap2Result → Bool
  | .valid => true
  | _ => false

/-- Embedding of `verifyRecaptcha(token, secret)` from `part2`: reject when
the reply lacks `success`; when a score is present, reject it below 0.4;
otherwise accept — in particular a `success` reply with no `score` field at
all is accepted.  Any thrown error yields the error result. -/
def verifyRecaptcha_part2 (net : Fetched RecapData) : Recap2Result :=
  match net with
  | .failed => .verificationError
  | .ok data =>
      if data.success = false then .failedVerification
      else
        match data.score with
        | some q => if q < (2 : ℚ)/5 then .scoreTooLow q else .valid
        | none => .valid

/-- Embedding of `verifyRecaptcha(token)` from `part3`: accept when no
secret is configured; reject when no token was supplied; otherwise accept
exactly when the reply has `success` and a score of at least 0.5; any
thrown error yields `false`. -/
def verifyRecaptcha_part3 (secret token : Option String)
    (net : Fetched RecapData) : Bool :=
  if jsTruthy secret = false then true
  else if jsTruthy token = false then false
  else
    match net with
    | .failed => false
    | .ok data =>
        data.success &&
          (match data.score with
           | some q => decide ((1 : ℚ)/2 ≤ q)
           | none => false)

/-- C6: every bot-score verifier fails closed.  Whenever the verification
service call fails (network error or unparseable response, both of which
throw into the `catch` block), and the verifier actually reaches the
service call (a secret is configured; for `part3` also a token was
supplied), the result is accepted = false — never accepted = true. -/
theorem C6_bot_verifier_fails_closed (secret token : String)
    (hs : secret ≠ "") (ht : token ≠ "") :
    verifyRecaptcha_contact (some secret) .failed = false ∧
    (verifyRecaptcha_part2 .failed).isValid = false ∧
    verifyRecaptcha_part3 (some secret) (some token) .failed = false := by
  refine ⟨?_, rfl, ?_⟩
  · simp [verifyRecaptcha_contact, jsTruthy, hs]
  · simp [verifyRecaptcha_part3, jsTruthy, hs, ht]

/-- Closed witness for C6 at secret `"s"`, token `"t"`. -/
theorem C6_bot_verifier_fails_closed_witness :
    verifyRecaptcha_contact (some "s") .failed = false ∧
    (verifyRecaptcha_part2 .failed).isValid = false ∧
    verifyRecaptcha_part3 (some "s") (some "t") .failed = false :=
  C6_bot_verifier_fails_closed "s" "t" (by decide) (by decide)

/-- C10: in the `part2` verifier, a service reply with `success = true` and
no `score` field at all is accepted — the 0.4 threshold is enforced only
when a numeric score is present. -/
theorem C10_part2_scoreless_success_accepted :
    verifyRecaptcha_part2 (.ok ⟨true, none⟩) = .valid ∧
    (verifyRecaptcha_part2 (.ok ⟨true, none⟩)).isValid = true := by
  exact ⟨rfl, rfl⟩

/-! ## Email delivery oracle

Delivery goes to the SendGrid HTTP API (`fetch` in `api/contact.js` and
`part2`, `sgMail.send` in `part3`).  The oracle records what the provider
did: a network failure (anything thrown) or a response with an HTTP status
code. -/

/-- Outcome of the outbound delivery call. -/
inductive SendNet where
  | netError
  | resp (status : Nat)

/-- HTTP `response.ok` / the `part3` 2xx check: `200 <= status < 300`. -/
def respOk (s : Nat) : Bool := 200 ≤ s && s < 300

/-! ## Requests, environment, handler results -/

/-- The request as the handlers see it: the method plus the body fields
and headers each variant reads.  A field is `none` when absent. -/
structure Req where
  method : String
  name : Option String
  email : Option String
  replyto : Option String
  service : Option String
  message : Option String
  website : Option String
  recaptchaToken : Option String
  grecaptchaResponse : Option String
  xForwardedFor : Option String
  xRealIp : Option String
  remoteAddress : Option String

/-- The environment variables the handlers read.  `rateLimitMax` and
`rateLimitWindowMin` model the parsed `RATE_LIMIT_MAX` and
`RATE_LIMIT_WINDOW_MIN` values. -/
structure Env where
  recaptchaSecret : Option String
  sendgridApiKey : Option String
  sendgridFrom : Option String
  contactTo : Option String
  rateLimitMax : Nat
  rateLimitWindowMin : Nat

/-- The rate-limit configuration a handler derives from its environment:
the window is `RATE_LIMIT_WINDOW_MIN * 60 * 1000` milliseconds. -/
def envCfg (env : Env) : RLConfig :=
  ⟨env.rateLimitMax, (env.rateLimitWindowMin : Int) * 60 * 1000⟩

/-- `!apiKey || !from || !to` negated: all three SendGrid settings are
configured. -/
def sendgridConfigured (env : Env) : Bool :=
  jsTruthy env.sendgridApiKey && jsTruthy env.sendgridFrom &&
    jsTruthy env.contactTo

/-- What a handler run produces: the HTTP status, the `error` string of the
response body (`none` for a success body), the rate-limit store after the
run, and whether the outbound delivery call was performed. -/
structure HResult where
  status : Nat
  error : Option String
  store : RLStore
  deliveryAttempted : Bool
  deriving DecidableEq

/-- Models `!x || !x.trim()` on a string-or-undefined field: absent, empty
or whitespace-only. -/
def fieldMissing (o : Option String) : Bool :=
  match o with
  | none => true
  | some s => jsTrim s = ""

/-- The `api/contact.js` honeypot condition
`body.website && body.website.trim() !== ''`. -/
def hpTrig_contact (req : Req) : Bool :=
  jsTruthy req.website && jsTrim (optStr req.website) ≠ ""

/-- Embedding of `sendEmail(formData)` from `api/contact.js`: with any of
the three SendGrid settings missing it throws before the outbound call;
otherwise it performs one `fetch` and throws unless the response is ok.
Returns (no exception thrown, outbound call performed). -/
def sendEmail_contact (env : Env) (net : SendNet) : Bool × Bool :=
  if sendgridConfigured env = false then (false, false)
  else
    match net with
    | .netError => (false, true)
    | .resp s => (respOk s, true)

/-- The tail of the `api/contact.js` handler: call `sendEmail` and map an
ok run to 200 `{ok: true}` and any thrown error — configuration missing,
network failure or provider rejection alike — to the one generic 500
response of the surrounding `catch`. -/
def sendPhase_contact (env : Env) (st : RLStore) (net : SendNet) : HResult :=
  let send := sendEmail_contact env net
  if send.1 then ⟨200, none, st, send.2⟩
  else ⟨500, some "Server error. Please try again later.", st, send.2⟩

/-- Embedding of the `api/contact.js` handler.  Gate order: method,
honeypot (trimmed), name, email presence (`_replyto || email`), message,
email format, rate limit (keyed by lowercased email), then optional
reCAPTCHA (only when both a token was sent and a secret is configured),
then delivery. -/
def handler_contact (env : Env) (store : RLStore) (now : Int) (req : Req)
    (recapNet : Fetched RecapData) (sendNet : SendNet) : HResult :=
  if req.method = "OPTIONS" then ⟨200, none, store, false⟩
  else if req.method ≠ "POST" then ⟨405, some "Method not allowed", store, false⟩
  else if hpTrig_contact req then ⟨400, some "Spam detected", store, false⟩
  else if fieldMissing req.name then ⟨400, some "Name is required", store, false⟩
  else
    let email := jsOr req.replyto req.email
    if fieldMissing email then ⟨400, some "Email is required", store, false⟩
    else if fieldMissing req.message then ⟨400, some "Message is required", store, false⟩
    else if isValidEmail (optStr email) = false then
      ⟨400, some "Invalid email format", store, false⟩
    else
      let rl := checkRateLimit (envCfg env) store (jsToLower (optStr email)) now
      if rl.1 = false then
        ⟨429, some "Rate limit exceeded. Please try again later.", rl.2, false⟩
      else if jsTruthy req.recaptchaToken && jsTruthy env.recaptchaSecret then
        if verifyRecaptcha_contact env.recaptchaSecret recapNet = false then
          ⟨400, some "reCAPTCHA verification failed", rl.2, false⟩
        else sendPhase_contact env rl.2 sendNet
      else sendPhase_contact env rl.2 sendNet

/-- Embedding of the `part2` handler.  Gate order: method, honeypot (raw
string non-empty), name, email presence, message, email format, optional
reCAPTCHA, rate limit (keyed by client IP), SendGrid configuration check
(its own 500), then delivery (its own 500 on failure). -/
def handler_part2 (env : Env) (store : RLStore) (now : Int) (req : Req)
    (recapNet : Fetched RecapData) (sendNet : SendNet) : HResult :=
  if req.method ≠ "POST" then ⟨405, some "Method not allowed", store, false⟩
  else
    let replyto := optStr (jsOr req.replyto req.email)
    let recaptchaToken := optStr req.recaptchaToken
    if optStr req.website ≠ "" then ⟨400, some "Invalid submission", store, false⟩
    else if jsTrim (optStr req.name) = "" then ⟨400, some "Name is required", store, false⟩
    else if jsTrim replyto = "" then ⟨400, some "Email is required", store, false⟩
    else if jsTrim (optStr req.message) = "" then ⟨400, some "Message is required", store, false⟩
    else if isValidEmail replyto = false then ⟨400, some "Invalid email format", store, false⟩
    else if (jsTruthy env.recaptchaSecret && recaptchaToken ≠ "") &&
        (verifyRecaptcha_part2 recapNet).isValid = false then
      ⟨400, some "reCAPTCHA verification failed", store, false⟩
    else
      let clientIp := optStr (jsOr (jsOr req.xForwardedFor req.xRealIp) (some "unknown"))
      let rl := checkRateLimit (envCfg env) store clientIp now
      if rl.1 = false then ⟨429, some "Too many requests. Please try again later.", rl.2, false⟩
      else if sendgridConfigured env = false then
        ⟨500, some "Server configuration error", rl.2, false⟩
      else
        let sendSuccess := match sendNet with
          | .netError => false
          | .resp s => respOk s
        if sendSuccess = false then
          ⟨500, some "Failed to send message. Please try again.", rl.2, true⟩
        else ⟨200, none, rl.2, true⟩

/-- Embedding of the `part3` handler.  Gate order: method, honeypot (any
truthy `website`, answered with a *fake 200 success* `Message received` to
avoid revealing the honeypot), combined name/email/message presence check
with one shared error, email format, reCAPTCHA whenever a secret is
configured, rate limit (keyed by client IP), SendGrid configuration check
(its own 500), then delivery via `sgMail.send`. -/
def handler_part3 (env : Env) (store : RLStore) (now : Int) (req : Req)
    (recapNet : Fetched RecapData) (sendNet : SendNet) : HResult :=
  if req.method = "OPTIONS" then ⟨200, none, store, false⟩
  else if req.method ≠ "POST" then ⟨405, some "Method not allowed", store, false⟩
  else if jsTruthy req.website then ⟨200, none, store, false⟩
  else if jsTruthy req.name = false || jsTruthy req.replyto = false ||
      jsTruthy req.message = false then
    ⟨400, some "Missing required fields", store, false⟩
  else if isValidEmail (optStr req.replyto) = false then
    ⟨400, some "Invalid email format", store, false⟩
  else if jsTruthy env.recaptchaSecret &&
      verifyRecaptcha_part3 env.recaptchaSecret req.grecaptchaResponse recapNet = false then
    ⟨400, some "reCAPTCHA verification failed", store, false⟩
  else
    let identifier := optStr (jsOr (jsOr req.xForwardedFor req.remoteAddress) (some "unknown"))
    let rl := checkRateLimit (envCfg env) store identifier now
    if rl.1 = false then ⟨429, some "Too many requests", rl.2, false⟩
    else if sendgridConfigured env = false then
      ⟨500, some "Server configuration error", rl.2, false⟩
    else
      match sendNet with
      | .netError => ⟨500, some "Internal server error", rl.2, true⟩
      | .resp s =>
          if respOk s then ⟨200, none, rl.2, true⟩
          else ⟨500, some "Failed to send email", rl.2, true⟩

/-! ## Concrete fixtures used by counterexamples and witnesses -/

/-- Environment with a reCAPTCHA secret and full SendGrid configuration. -/
def envFull : Env := ⟨some "sec", some "key", some "from", some "to", 5, 60⟩

/-- Environment with no reCAPTCHA secret, full SendGrid configuration. -/
def envNoCaptcha : Env := ⟨none, some "key", some "from", some "to", 5, 60⟩

/-- Environment with no reCAPTCHA secret and the SendGrid API key missing. -/
def envNoSendgrid : Env := ⟨none, none, some "from", some "to", 5, 60⟩

/-- A POST request that is fully valid except that the honeypot `website`
field holds a single space (non-empty, whitespace-only). -/
def reqWsHoneypot : Req :=
  ⟨"POST", some "A", some "a@b.c", none, none, some "hi", some " ",
    none, none, none, none, none⟩

/-- A POST request that is fully valid except that the honeypot `website`
field holds `http://spam.com`. -/
def reqSpamHoneypot : Req :=
  ⟨"POST", some "A", some "a@b.c", none, none, some "hi", some "http://spam.com",
    none, none, none, none, none⟩

/-- A fully valid POST request carrying a reCAPTCHA token. -/
def reqWithToken : Req :=
  ⟨"POST", some "A", some "a@b.c", none, none, some "hi", none,
    some "tok", some "tok", none, none, none⟩

/-- A POST request missing `name` (and with no `email` fallback), with a
valid `_replyto` email and message. -/
def reqNoName : Req :=
  ⟨"POST", none, none, some "a@b.c", none, some "hi", none,
    none, none, none, none, none⟩

/-- A POST request missing only `message`. -/
def reqNoMessage : Req :=
  ⟨"POST", some "A", none, some "a@b.c", none, none, none,
    none, none, none, none, none⟩

/-- A POST request missing both `name` and any email field. -/
def reqNoNameNoEmail : Req :=
  ⟨"POST", none, none, none, none, some "hi", none,
    none, none, none, none, none⟩

/-! ## C3 — validation order -/

/-- C3 counterexample: in the `part3` handler (a cited source of the
claim) there is no name-specific outcome code: a payload missing only
`name` and a payload missing only `message` receive the identical
`Missing required fields` error, so the name-presence check does not fail
with its own outcome code, and a payload missing both name and email gets
the same combined error rather than a name error distinct from an email
error. -/
theorem C3_counterexample :
    (handler_part3 envNoCaptcha [] 0 reqNoName .failed (.resp 202)).error =
      some "Missing required fields" ∧
    (handler_part3 envNoCaptcha [] 0 reqNoMessage .failed (.resp 202)).error =
      some "Missing required fields" ∧
    (handler_part3 envNoCaptcha [] 0 reqNoNameNoEmail .failed (.resp 202)).error =
      some "Missing required fields" := by
  exact ⟨by decide, by decide, by decide⟩

/-- C3 amended: in the `api/contact.js` and `part2` handlers the POST
checks run honeypot, then name presence, then email presence, then message
presence, then email format, each failing fast with its own error (so a
payload missing both name and email yields the name error); in the `part3`
handler the order is honeypot, then a combined name/email/message presence
check with one shared error, then email format. -/
theorem C3_validation_order_amended :
    (∀ env store now req rn sn, req.method = "POST" →
      hpTrig_contact req = false → fieldMissing req.name = true →
      handler_contact env store now req rn sn =
        ⟨400, some "Name is required", store, false⟩) ∧
    (∀ env store now req rn sn, req.method = "POST" →
      hpTrig_contact req = false → fieldMissing req.name = false →
      fieldMissing (jsOr req.replyto req.email) = true →
      handler_contact env store now req rn sn =
        ⟨400, some "Email is required", store, false⟩) ∧
    (∀ env store now req rn sn, req.method = "POST" →
      hpTrig_contact req = false → fieldMissing req.name = false →
      fieldMissing (jsOr req.replyto req.email) = false →
      fieldMissing req.message = true →
      handler_contact env store now req rn sn =
        ⟨400, some "Message is required", store, false⟩) ∧
    (∀ env store now req rn sn, req.method = "POST" →
      hpTrig_contact req = false → fieldMissing req.name = false →
      fieldMissing (jsOr req.replyto req.email) = false →
      fieldMissing req.message = false →
      isValidEmail (optStr (jsOr req.replyto req.email)) = false →
      handler_contact env store now req rn sn =
        ⟨400, some "Invalid email format", store, false⟩) ∧
    (∀ env store now req rn sn, req.method = "POST" →
      optStr req.website = "" → jsTrim (optStr req.name) = "" →
      handler_part2 env store now req rn sn =
        ⟨400, some "Name is required", store, false⟩) ∧
    (∀ env store now req rn sn, req.method = "POST" →
      optStr req.website = "" → jsTrim (optStr req.name) ≠ "" →
      jsTrim (optStr (jsOr req.replyto req.email)) = "" →
      handler_part2 env store now req rn sn =
        ⟨400, some "Email is required", store, false⟩) ∧
    (∀ env store now req rn sn, req.method = "POST" →
      optStr req.website = "" → jsTrim (optStr req.name) ≠ "" →
      jsTrim (optStr (jsOr req.replyto req.email)) ≠ "" →
      jsTrim (optStr req.message) = "" →
      handler_part2 env store now req rn sn =
        ⟨400, some "Message is required", store, false⟩) ∧
    (∀ env store now req rn sn, req.method = "POST" →
      optStr req.website = "" → jsTrim (optStr req.name) ≠ "" →
      jsTrim (optStr (jsOr req.replyto req.email)) ≠ "" →
      jsTrim (optStr req.message) ≠ "" →
      isValidEmail (optStr (jsOr req.replyto req.email)) = false →
      handler_part2 env store now req rn sn =
        ⟨400, some "Invalid email format", store, false⟩) ∧
    (∀ env store now req rn sn, req.method = "POST" →
      jsTruthy req.website = false →
      (jsTruthy req.name = false ∨ jsTruthy req.replyto = false ∨
        jsTruthy req.message = false) →
      handler_part3 env store now req rn sn =
        ⟨400, some "Missing required fields", store, false⟩) := by
  refine ⟨?_, ?_, ?_, ?_, ?_, ?_, ?_, ?_, ?_⟩
  · intro env store now req rn sn h1 h2 h3
    simp [handler_contact, h1, h2, h3]
  · intro env store now req rn sn h1 h2 h3 h4
    simp [handler_contact, h1, h2, h3, h4]
  · intro env store now req rn sn h1 h2 h3 h4 h5
    simp [handler_contact, h1, h2, h3, h4, h5]
  · intro env store now req rn sn h1 h2 h3 h4 h5 h6
    simp [handler_contact, h1, h2, h3, h4, h5, h6]
  · intro env store now req rn sn h1 h2 h3
    simp [handler_part2, h1, h2, h3]
  · intro env store now req rn sn h1 h2 h3 h4
    simp [handler_part2, h1, h2, h3, h4]
  · intro env store now req rn sn h1 h2 h3 h4 h5
    simp [handler_part2, h1, h2, h3, h4, h5]
  · intro env store now req rn sn h1 h2 h3 h4 h5 h6
    simp [handler_part2, h1, h2, h3, h4, h5, h6]
  · intro env store now req rn sn h1 h2 h3
    rcases h3 with h3 | h3 | h3 <;> simp [handler_part3, h1, h2, h3]

/-- Closed witness for the amended C3: a payload missing both name and
email yields the name error in `api/contact.js` and `part2`, and the
combined error in `part3`. -/
theorem C3_validation_order_amended_witness :
    handler_contact envNoCaptcha [] 0 reqNoNameNoEmail .failed (.resp 202) =
      ⟨400, some "Name is required", [], false⟩ ∧
    handler_part2 envNoCaptcha [] 0 reqNoNameNoEmail .failed (.resp 202) =
      ⟨400, some "Name is required", [], false⟩ ∧
    handler_part3 envNoCaptcha [] 0 reqNoNameNoEmail .failed (.resp 202) =
      ⟨400, some "Missing required fields", [], false⟩ :=
  ⟨C3_validation_order_amended.1 envNoCaptcha [] 0 reqNoNameNoEmail .failed (.resp 202)
      (by decide) (by decide) (by decide),
    C3_validation_order_amended.2.2.2.2.1 envNoCaptcha [] 0 reqNoNameNoEmail .failed (.resp 202)
      (by decide) (by decide) (by decide),
    C3_validation_order_amended.2.2.2.2.2.2.2.2 envNoCaptcha [] 0 reqNoNameNoEmail .failed (.resp 202)
      (by decide) (by decide) (Or.inl (by decide))⟩

/-! ## C4 — honeypot -/

/-- C4 counterexample: the claim fails on two of its cited sources.  In
`api/contact.js` a whitespace-only `website` (here a single space) does
*not* trigger the honeypot — the otherwise-valid request proceeds to a 200
and delivery is attempted.  In `part3` a plainly non-empty `website`
(`http://spam.com`) is answered with HTTP 200 (a fake success), not the
claimed 400 spam rejection (delivery is suppressed, though). -/
theorem C4_counterexample :
    (handler_contact envNoCaptcha [] 0 reqWsHoneypot .failed (.resp 202)).status = 200 ∧
    (handler_contact envNoCaptcha [] 0 reqWsHoneypot .failed (.resp 202)).deliveryAttempted = true ∧
    (handler_part3 envNoCaptcha [] 0 reqSpamHoneypot .failed (.resp 202)).status = 200 := by
  exact ⟨by decide, by decide, by decide⟩

/-- C4 amended: the honeypot policy is per variant.  In `part2` every POST
payload with a non-empty `website` (whitespace-only included) gets the 400
spam rejection `Invalid submission` and delivery is never attempted; in
`api/contact.js` the honeypot fires only when `website` is non-empty after
trimming, and then yields 400 `Spam detected` with no delivery; in `part3`
any truthy `website` suppresses delivery but is answered with a fake 200
success. -/
theorem C4_honeypot_amended :
    (∀ env store now req rn sn, req.method = "POST" →
      optStr req.website ≠ "" →
      handler_part2 env store now req rn sn =
        ⟨400, some "Invalid submission", store, false⟩) ∧
    (∀ env store now req rn sn, req.method = "POST" →
      hpTrig_contact req = true →
      handler_contact env store now req rn sn =
        ⟨400, some "Spam detected", store, false⟩) ∧
    (∀ env store now req rn sn, req.method = "POST" →
      jsTruthy req.website = true →
      handler_part3 env store now req rn sn = ⟨200, none, store, false⟩) := by
  refine ⟨?_, ?_, ?_⟩
  · intro env store now req rn sn h1 h2
    simp [handler_part2, h1, h2]
  · intro env store now req rn sn h1 h2
    simp [handler_contact, h1, h2]
  · intro env store now req rn sn h1 h2
    simp [handler_part3, h1, h2]

/-- Closed witness for the amended C4 at the whitespace-only honeypot
request. -/
theorem C4_honeypot_amended_witness :
    handler_part2 envNoCaptcha [] 0 reqWsHoneypot .failed (.resp 202) =
      ⟨400, some "Invalid submission", [], false⟩ ∧
    handler_contact envNoCaptcha [] 0 reqSpamHoneypot .failed (.resp 202) =
      ⟨400, some "Spam detected", [], false⟩ ∧
    handler_part3 envNoCaptcha [] 0 reqSpamHoneypot .failed (.resp 202) =
      ⟨200, none, [], false⟩ :=
  ⟨C4_honeypot_amended.1 envNoCaptcha [] 0 reqWsHoneypot .failed (.resp 202)
      (by decide) (by decide),
    C4_honeypot_amended.2.1 envNoCaptcha [] 0 reqSpamHoneypot .failed (.resp 202)
      (by decide) (by decide),
    C4_honeypot_amended.2.2 envNoCaptcha [] 0 reqSpamHoneypot .failed (.resp 202)
      (by decide) (by decide)⟩

/-! ## C5 — bot-check / admission ordering -/

/-- C5 counterexample: in `api/contact.js` (a cited source) the rate-limit
admission runs *before* the reCAPTCHA bot-check.  Starting from an empty
store, a fully valid request whose bot verification fails is rejected with
the bot-check error, yet a timestamp has been recorded for its identifier
— the bot-rejected request consumed one of the sender's admission slots,
contradicting the claimed frame property. -/
theorem C5_counterexample :
    (handler_contact envFull [] 0 reqWithToken .failed (.resp 202)).error =
      some "reCAPTCHA verification failed" ∧
    mapGet (handler_contact envFull [] 0 reqWithToken .failed (.resp 202)).store
      "a@b.c" = [0] ∧
    mapGet ([] : RLStore) "a@b.c" = [] := by
  exact ⟨by decide, by decide, by decide⟩

/-- C5 amended: in the `part2` handler the bot-check does run before
admission, so a bot-rejected request leaves the rate-limit store exactly
unchanged and never reaches delivery; in `api/contact.js` the rate limit
runs before the bot-check, so a bot-rejected request does consume an
admission slot; in both handlers a request denied by the rate limit never
invokes the delivery call. -/
theorem C5_admission_frame_amended :
    (∀ env store now req rn sn, req.method = "POST" →
      optStr req.website = "" → jsTrim (optStr req.name) ≠ "" →
      jsTrim (optStr (jsOr req.replyto req.email)) ≠ "" →
      jsTrim (optStr req.message) ≠ "" →
      isValidEmail (optStr (jsOr req.replyto req.email)) = true →
      (jsTruthy env.recaptchaSecret && optStr req.recaptchaToken ≠ "") = true →
      (verifyRecaptcha_part2 rn).isValid = false →
      handler_part2 env store now req rn sn =
        ⟨400, some "reCAPTCHA verification failed", store, false⟩) ∧
    (∀ env store now req rn sn, req.method = "POST" →
      hpTrig_contact req = false → fieldMissing req.name = false →
      fieldMissing (jsOr req.replyto req.email) = false →
      fieldMissing req.message = false →
      isValidEmail (optStr (jsOr req.replyto req.email)) = true →
      (checkRateLimit (envCfg env) store
        (jsToLower (optStr (jsOr req.replyto req.email))) now).1 = false →
      handler_contact env store now req rn sn =
        ⟨429, some "Rate limit exceeded. Please try again later.",
          (checkRateLimit (envCfg env) store
            (jsToLower (optStr (jsOr req.replyto req.email))) now).2, false⟩) ∧
    (∀ env store now req rn sn, req.method = "POST" →
      optStr req.website = "" → jsTrim (optStr req.name) ≠ "" →
      jsTrim (optStr (jsOr req.replyto req.email)) ≠ "" →
      jsTrim (optStr req.message) ≠ "" →
      isValidEmail (optStr (jsOr req.replyto req.email)) = true →
      ((jsTruthy env.recaptchaSecret && optStr req.recaptchaToken ≠ "") &&
        (verifyRecaptcha_part2 rn).isValid = false) = false →
      (checkRateLimit (envCfg env) store
        (optStr (jsOr (jsOr req.xForwardedFor req.xRealIp) (some "unknown"))) now).1 = false →
      handler_part2 env store now req rn sn =
        ⟨429, some "Too many requests. Please try again later.",
          (checkRateLimit (envCfg env) store
            (optStr (jsOr (jsOr req.xForwardedFor req.xRealIp) (some "unknown"))) now).2,
          false⟩) := by
  refine ⟨?_, ?_, ?_⟩
  · intro env store now req rn sn h1 h2 h3 h4 h5 h6 h7 h8
    have h7a : jsTruthy env.recaptchaSecret = true := (Bool.and_eq_true _ _ |>.mp h7).1
    have h7b : optStr req.recaptchaToken ≠ "" :=
      of_decide_eq_true (Bool.and_eq_true _ _ |>.mp h7).2
    simp [handler_part2, h1, h2, h3, h4, h5, h6, h7a, h7b, h8]
  · intro env store now req rn sn h1 h2 h3 h4 h5 h6 h7
    simp [handler_contact, h1, h2, h3, h4, h5, h6, h7]
  · intro env store now req rn sn h1 h2 h3 h4 h5 h6 h7 h8
    by_cases hA : jsTruthy env.recaptchaSecret = true
    · by_cases hB : optStr req.recaptchaToken = ""
      · simp [handler_part2, h1, h2, h3, h4, h5, h6, hA, hB, h8]
      · have hC : (verifyRecaptcha_part2 rn).isValid = true := by
          cases hc : (verifyRecaptcha_part2 rn).isValid with
          | true => rfl
          | false => exact absurd h7 (by simp [hA, hB, hc])
        simp [handler_part2, h1, h2, h3, h4, h5, h6, hA, hB, hC, h8]
    · have hA2 : jsTruthy env.recaptchaSecret = false := by simpa using hA
      simp [handler_part2, h1, h2, h3, h4, h5, h6, hA2, h8]

/-- Closed witness for the amended C5: a bot-rejected request against
`part2` leaves the empty store empty; a sixth valid request in `part2`
against a full window is denied with no delivery and no new timestamp. -/
theorem C5_admission_frame_amended_witness :
    handler_part2 envFull [] 0 reqWithToken .failed (.resp 202) =
      ⟨400, some "reCAPTCHA verification failed", [], false⟩ ∧
    handler_part2 envNoCaptcha [("unknown", [0, 1, 2, 3, 4])] 5 reqWithToken
        .failed (.resp 202) =
      ⟨429, some "Too many requests. Please try again later.",
        [("unknown", [0, 1, 2, 3, 4])], false⟩ := by
  constructor
  · exact C5_admission_frame_amended.1 envFull [] 0 reqWithToken .failed (.resp 202)
      (by decide) (by decide) (by decide) (by decide) (by decide) (by decide)
      (by decide) (by decide)
  · exact C5_admission_frame_amended.2.2 envNoCaptcha [("unknown", [0, 1, 2, 3, 4])]
      5 reqWithToken .failed (.resp 202)
      (by decide) (by decide) (by decide) (by decide) (by decide) (by decide)
      (by decide) (by decide)

/-! ## C7 — misconfiguration vs delivery failure -/

/-- C7 counterexample: in `api/contact.js` (a cited source) there is no
distinct misconfiguration outcome.  A fully valid, admitted request run
against an environment with the SendGrid API key missing produces exactly
the same status and error body — the generic 500 of the surrounding
`catch` — as the same request run against a fully configured environment
whose provider rejects the message with HTTP 500; delivery was never
attempted in the first run. -/
theorem C7_counterexample :
    (handler_contact envNoSendgrid [] 0 reqWithToken .failed (.resp 202)).status = 500 ∧
    (handler_contact envNoSendgrid [] 0 reqWithToken .failed (.resp 202)).error =
      some "Server error. Please try again later." ∧
    (handler_contact envNoSendgrid [] 0 reqWithToken .failed (.resp 202)).deliveryAttempted
      = false ∧
    (handler_contact envNoCaptcha [] 0 reqWithToken .failed (.resp 500)).status = 500 ∧
    (handler_contact envNoCaptcha [] 0 reqWithToken .failed (.resp 500)).error =
      some "Server error. Please try again later." := by
  exact ⟨by decide, by decide, by decide, by decide, by decide⟩

/-- C7 amended: in the `part2` handler a request that passes validation
and admission but finds the SendGrid configuration missing gets the
distinct 500 `Server configuration error` (with no delivery attempt),
while a provider rejection after a delivery attempt gets the different
500 `Failed to send message. Please try again.`; in `api/contact.js` both
conditions surface as the same generic 500 `Server error. Please try
again later.` response. -/
theorem C7_misconfiguration_distinct_amended :
    (∀ env store now req rn sn, req.method = "POST" →
      optStr req.website = "" → jsTrim (optStr req.name) ≠ "" →
      jsTrim (optStr (jsOr req.replyto req.email)) ≠ "" →
      jsTrim (optStr req.message) ≠ "" →
      isValidEmail (optStr (jsOr req.replyto req.email)) = true →
      jsTruthy env.recaptchaSecret = false →
      (checkRateLimit (envCfg env) store
        (optStr (jsOr (jsOr req.xForwardedFor req.xRealIp) (some "unknown"))) now).1 = true →
      sendgridConfigured env = false →
      handler_part2 env store now req rn sn =
        ⟨500, some "Server configuration error",
          (checkRateLimit (envCfg env) store
            (optStr (jsOr (jsOr req.xForwardedFor req.xRealIp) (some "unknown"))) now).2,
          false⟩) ∧
    (∀ env store now req rn s, req.method = "POST" →
      optStr req.website = "" → jsTrim (optStr req.name) ≠ "" →
      jsTrim (optStr (jsOr req.replyto req.email)) ≠ "" →
      jsTrim (optStr req.message) ≠ "" →
      isValidEmail (optStr (jsOr req.replyto req.email)) = true →
      jsTruthy env.recaptchaSecret = false →
      (checkRateLimit (envCfg env) store
        (optStr (jsOr (jsOr req.xForwardedFor req.xRealIp) (some "unknown"))) now).1 = true →
      sendgridConfigured env = true → respOk s = false →
      handler_part2 env store now req rn (.resp s) =
        ⟨500, some "Failed to send message. Please try again.",
          (checkRateLimit (envCfg env) store
            (optStr (jsOr (jsOr req.xForwardedFor req.xRealIp) (some "unknown"))) now).2,
          true⟩) ∧
    (∀ env st net, sendgridConfigured env = false →
      sendPhase_contact env st net =
        ⟨500, some "Server error. Please try again later.", st, false⟩) ∧
    (∀ env st s, sendgridConfigured env = true → respOk s = false →
      sendPhase_contact env st (.resp s) =
        ⟨500, some "Server error. Please try again later.", st, true⟩) := by
  refine ⟨?_, ?_, ?_, ?_⟩
  · intro env store now req rn sn h1 h2 h3 h4 h5 h6 h7 h8 h9
    simp [handler_part2, h1, h2, h3, h4, h5, h6, h7, h8, h9]
  · intro env store now req rn s h1 h2 h3 h4 h5 h6 h7 h8 h9 h10
    simp [handler_part2, h1, h2, h3, h4, h5, h6, h7, h8, h9, h10]
  · intro env st net h
    simp [sendPhase_contact, sendEmail_contact, h]
  · intro env st s h1 h2
    simp [sendPhase_contact, sendEmail_contact, h1, h2]

/-- Closed witness for the amended C7: the same valid admitted request
yields `part2`'s configuration error with no delivery attempt when the
API key is missing, and `part2`'s delivery error after an attempt when the
provider answers 500. -/
theorem C7_misconfiguration_distinct_amended_witness :
    handler_part2 envNoSendgrid [] 0 reqWithToken .failed (.resp 202) =
      ⟨500, some "Server configuration error", [("unknown", [0])], false⟩ ∧
    handler_part2 envNoCaptcha [] 0 reqWithToken .failed (.resp 500) =
      ⟨500, some "Failed to send message. Please try again.",
        [("unknown", [0])], true⟩ := by
  constructor
  · have h := C7_misconfiguration_distinct_amended.1 envNoSendgrid [] 0 reqWithToken
      .failed (.resp 202) (by decide) (by decide) (by decide) (by decide) (by decide)
      (by decide) (by decide) (by decide) (by decide)
    rw [h]
    decide
  · have h := C7_misconfiguration_distinct_amended.2.1 envNoCaptcha [] 0 reqWithToken
      .failed 500 (by decide) (by decide) (by decide) (by decide) (by decide)
      (by decide) (by decide) (by decide) (by decide) (by decide)
    rw [h]
    decide
